import Mathlib

/-!
Verification of the single-byte robot-header codec (src/main.c) against its
natural-language specification.

The program decodes one byte into a record of four bit-fields.  The C source
defines `struct RobotHeader` with four `int` fields and two functions:
`parseByte` (bit-field extraction) and `getRobotGender` (gender via an AND
mask stored in a plain `char`).  The lookup table of the specification appears
only as a comment in the source, and an `encode` operation does not appear at
all; those are modelled from the specification below and are marked as such.

Machine integers are modelled as `Nat`; the input byte is an `unsigned char`,
so every theorem quantifies over `b < 256`.  The signed `char` mask in
`getRobotGender` is modelled by its 32-bit two's-complement representation.
-/

/-- The C struct RobotHeader (src/main.c, lines 76-82): four int fields.
All field values produced by the program are nonnegative, so Nat suffices. -/
structure RobotHeader where
  gender : Nat
  version : Nat
  active : Nat
  gigahertz : Nat
deriving DecidableEq, Repr

/-- Embedding of parseByte (src/main.c, lines 84-94):
gender = byte >> 7, version = byte >> 5 & 0b11, active = byte >> 4 & 0b1,
gigahertz = byte & 0b1111.  C operator precedence binds the shift before the
AND, matching the grouping below. -/
def parseByte (byte : Nat) : RobotHeader :=
  { gender := byte >>> 7
    version := (byte >>> 5) &&& 0b00000011
    active := (byte >>> 4) &&& 0b00000001
    gigahertz := byte &&& 0b00001111 }

/-- Embedding of getRobotGender (src/main.c, lines 96-109).  The C code stores
the mask 0x80 in a plain char; on the usual signed 8-bit char that conversion
yields -128, which is promoted to a 32-bit int for the AND, represented here in
two's complement as 2^32 - 128.  The int result is stored into an unsigned
char (reduction mod 256), then compared with 0. -/
def getRobotGender (byte : Nat) : Nat :=
  let mask : Nat := 2 ^ 32 - 128
  let res : Nat := (byte &&& mask) % 256
  if res = 0 then 0 else 1

/-- Reassembly of the four stored fields into a byte, with each field placed
at the bit position parseByte extracted it from (no version offset). -/
def reassemble (r : RobotHeader) : Nat :=
  (r.gender <<< 7) ||| (r.version <<< 5) ||| (r.active <<< 4) ||| r.gigahertz

/-- Modelled from the spec: the LookupTable contents (section 4.1).  The table
exists in the repository only as a comment block in src/main.c (lines 20-37);
no code implements it.  Row index = 4-bit code 0..15, column = version 1..4. -/
def tableRows : List (List Nat) :=
  [[0, 0, 0, 100],
   [0, 0, 100, 200],
   [0, 100, 150, 250],
   [0, 125, 175, 340],
   [5, 125, 180, 365],
   [10, 150, 200, 365],
   [10, 150, 375, 375],
   [10, 150, 400, 400],
   [15, 150, 450, 1000],
   [15, 150, 450, 1150],
   [15, 150, 500, 1250],
   [20, 155, 550, 5000],
   [100, 200, 1560, 9800],
   [150, 250, 2000, 12100],
   [230, 330, 6000, 23500],
   [300, 500, 18000, 235550]]

/-- Modelled from the spec: LookupTable.resolve (section 4.1): returns the
tabulated value for version in [1,4] and code in [0,15], and fails with an
InvalidArgument condition (none) outside that domain.  No code in src/
implements this operation. -/
def resolve (version code : Nat) : Option Nat :=
  if 1 ≤ version ∧ version ≤ 4 ∧ code ≤ 15 then
    (tableRows.get? code).bind (fun row => row.get? (version - 1))
  else
    none

/-- Validity of a record for the encode direction, as the spec declares the
field domains (section 4.2): version in [1,4], code in [0,15], gender and
active in \x7b0,1\x7d. -/
def validRecord (r : RobotHeader) : Bool :=
  decide (r.gender ≤ 1 ∧ 1 ≤ r.version ∧ r.version ≤ 4 ∧
          r.active ≤ 1 ∧ r.gigahertz ≤ 15)

/-- The byte produced by the spec encode on a valid record:
(gender << 7) | ((version - 1) << 5) | (active << 4) | code. -/
def encodeVal (r : RobotHeader) : Nat :=
  (r.gender <<< 7) ||| ((r.version - 1) <<< 5) ||| (r.active <<< 4) ||| r.gigahertz

/-- Modelled from the spec: RecordCodec.encode (section 4.2).  No code in the
repository implements encoding; the spec describes it as the inverse
reassembly with precondition checking, failing with an InvalidArgument
condition (none) when any field is outside its domain. -/
def encode (r : RobotHeader) : Option Nat :=
  if validRecord r then some (encodeVal r) else none

/-- Variant of encode that writes the stored version field directly (domain
[0,3], no subtraction), matching how parseByte actually stores the 2-bit
field. -/
def encodeRaw (r : RobotHeader) : Option Nat :=
  if r.gender ≤ 1 ∧ r.version ≤ 3 ∧ r.active ≤ 1 ∧ r.gigahertz ≤ 15 then
    some (reassemble r)
  else
    none

set_option maxRecDepth 8000

/-- Helper: reassembling the four fields stored by parseByte reproduces the
input byte, for every byte value. -/
theorem reassemble_parseByte : ∀ b < 256, reassemble (parseByte b) = b := by
  decide

/-- C1 counterexample: at input byte 0xFF the version field stored by
parseByte is the raw 2-bit code 3, not the code plus one (4) that the claim
states. -/
theorem parseByte_version_not_plus_one :
    ¬ ((parseByte 0xFF).version = ((0xFF >>> 5) &&& 0b11) + 1) := by
  decide

/-- C1 (amended): for every input byte b, parseByte stores the raw 2-bit
field at bits 6-5 in version, with no increment: version = b / 32 % 4, a
value in [0,3].  The semantic version of the narrative (code 0 means
version 1, and so on) is code + 1, but the code never applies it; the
driver asserts version == 3 for 0xFF. -/
theorem parseByte_version_raw_code :
    ∀ b < 256, (parseByte b).version = b / 32 % 4 ∧ (parseByte b).version ≤ 3 := by
  decide

/-- C1 witness: the amended claim evaluated at byte 0xFF. -/
theorem parseByte_version_raw_code_witness :
    (parseByte 0xFF).version = 0xFF / 32 % 4 ∧ (parseByte 0xFF).version ≤ 3 :=
  parseByte_version_raw_code 0xFF (by decide)

/-- C2 counterexample: the decoded record for 0xFF carries no resolved value:
its fourth field gigahertz is the raw 4-bit code 15, while the table entry
for (version 4, code 15) is 235550. -/
theorem parseByte_no_resolvedValue :
    (parseByte 0xFF).gigahertz = 15 ∧ resolve 4 15 = some 235550 ∧
      (15 : Nat) ≠ 235550 := by
  decide

/-- C2 (amended): parseByte stores the raw 4-bit code in gigahertz and
performs no table lookup; the record carries no resolvedValue field.  The
table entry resolve (version + 1) gigahertz, with resolve modelled from the
spec table, is nonetheless well defined for every decoded record, so the
resolved value is a pure function of the two decoded fields even though
decode never computes it. -/
theorem parseByte_gigahertz_raw_and_resolve_defined :
    ∀ b < 256, (parseByte b).gigahertz = b % 16 ∧
      (resolve ((parseByte b).version + 1) ((parseByte b).gigahertz)).isSome = true := by
  decide

/-- C2 witness: the amended claim evaluated at byte 0xFF. -/
theorem parseByte_gigahertz_raw_and_resolve_defined_witness :
    (parseByte 0xFF).gigahertz = 0xFF % 16 ∧
      (resolve ((parseByte 0xFF).version + 1) ((parseByte 0xFF).gigahertz)).isSome = true :=
  parseByte_gigahertz_raw_and_resolve_defined 0xFF (by decide)

/-- C3 counterexample: decoding 0x92 yields version field 0, not 1 as the
claim states; the driver itself asserts hdr2.version == 0. -/
theorem parseByte_0x92_version_ne_one :
    (parseByte 0x92).version ≠ 1 := by
  decide

/-- C3 (amended): decoding 0xFF yields gender 1 (MALE), version field 3 (the
raw code; the narrative version is 4), active 1, code 15; decoding 0x92
yields gender 1, version field 0 (narrative version 1), active 1, code 2.
The spec table gives resolve 4 15 = 235550 and resolve 1 2 = 0, but decode
does not store these: the gigahertz field holds the raw code (15 and 2). -/
theorem parseByte_literal_bytes :
    parseByte 0xFF = ⟨1, 3, 1, 15⟩ ∧ parseByte 0x92 = ⟨1, 0, 1, 2⟩ ∧
      resolve 4 15 = some 235550 ∧ resolve 1 2 = some 0 := by
  decide

/-- C4 counterexample: the spec encode applied to the decoded record of 0xFF
yields 0xDF, not 0xFF: parseByte stores the raw version code 3, and encode
subtracts one before writing bits 6-5. -/
theorem encode_parseByte_not_roundtrip :
    encode (parseByte 0xFF) = some 0xDF ∧ (0xDF : Nat) ≠ 0xFF := by
  decide

/-- C4 (amended): the round trip holds once encode writes the stored version
field directly: for every byte b in [0,255], encodeRaw (parseByte b) = some b,
where encodeRaw reassembles (gender << 7) | (version << 5) | (active << 4)
| code over the stored domain version in [0,3].  With the spec encode, which
maps version in [1,4] through version - 1, the round trip fails for every
byte because parseByte stores the raw code. -/
theorem encodeRaw_parseByte_roundtrip :
    ∀ b < 256, encodeRaw (parseByte b) = some b := by
  decide

/-- C4 witness: the amended round trip evaluated at byte 0xFF. -/
theorem encodeRaw_parseByte_roundtrip_witness :
    encodeRaw (parseByte 0xFF) = some 0xFF :=
  encodeRaw_parseByte_roundtrip 0xFF (by decide)

/-- C5: for every input byte b, parseByte extracts gender as b shifted right
by 7 (equivalently b / 128, a value in [0,1], with no mask applied), active
as bit 4 (b / 16 % 2) and the 4-bit code as the low nibble (b % 16) with no
shift. -/
theorem parseByte_field_extraction :
    ∀ b < 256, (parseByte b).gender = b / 128 ∧ (parseByte b).gender ≤ 1 ∧
      (parseByte b).active = b / 16 % 2 ∧ (parseByte b).gigahertz = b % 16 := by
  decide

/-- C5 witness: the field extraction evaluated at byte 0x92. -/
theorem parseByte_field_extraction_witness :
    (parseByte 0x92).gender = 0x92 / 128 ∧ (parseByte 0x92).gender ≤ 1 ∧
      (parseByte 0x92).active = 0x92 / 16 % 2 ∧ (parseByte 0x92).gigahertz = 0x92 % 16 :=
  parseByte_field_extraction 0x92 (by decide)

/-- C6: decoding is total: parseByte is a total function, and for every byte
value in [0,255] each field of the returned record lies in the range of its
bit-field (gender and active in [0,1], the version field in [0,3] as stored,
code in [0,15]); there is no failure path in the decode direction. -/
theorem parseByte_total_in_range :
    ∀ b < 256, (parseByte b).gender ≤ 1 ∧ (parseByte b).version ≤ 3 ∧
      (parseByte b).active ≤ 1 ∧ (parseByte b).gigahertz ≤ 15 := by
  decide

/-- C6 witness: the ranges evaluated at byte 0xFF. -/
theorem parseByte_total_in_range_witness :
    (parseByte 0xFF).gender ≤ 1 ∧ (parseByte 0xFF).version ≤ 3 ∧
      (parseByte 0xFF).active ≤ 1 ∧ (parseByte 0xFF).gigahertz ≤ 15 :=
  parseByte_total_in_range 0xFF (by decide)

/-- C7: the spec encode fails (InvalidArgument, modelled as none) exactly
when some field of the record is outside its declared domain: gender above 1,
version outside [1,4], active above 1, or code above 15; in particular
version 5, code 16 and gender 2 are each rejected.  This if-and-only-if form
also shows it is the only error condition: on every in-domain record encode
succeeds. -/
theorem encode_invalidArgument_iff :
    (∀ g v a c : Nat, encode ⟨g, v, a, c⟩ = none ↔
      ¬(g ≤ 1 ∧ 1 ≤ v ∧ v ≤ 4 ∧ a ≤ 1 ∧ c ≤ 15)) ∧
    encode ⟨0, 5, 0, 0⟩ = none ∧ encode ⟨0, 1, 0, 16⟩ = none ∧
    encode ⟨2, 1, 0, 0⟩ = none := by
  refine ⟨fun g v a c => ?_, by decide, by decide, by decide⟩
  by_cases h : (g ≤ 1 ∧ 1 ≤ v ∧ v ≤ 4 ∧ a ≤ 1 ∧ c ≤ 15)
  · simp [encode, validRecord, h]
  · simp [encode, validRecord, h]

/-- C8: for every valid record (gender and active in [0,1], version written
as w + 1 with w in [0,3], code in [0,15]), flipping only the active field and
re-encoding XORs the byte with 16, so only bit 4 changes; flipping only the
gender field XORs it with 128, so only bit 7 changes; and the unflipped
record encodes to the base byte.  A XOR with a single-bit mask changes
exactly that bit and leaves all other bits identical. -/
theorem encode_flip_single_bit :
    (∀ g < 2, ∀ w < 4, ∀ a < 2, ∀ c < 16,
      encode ⟨g, w + 1, 1 - a, c⟩ = some (encodeVal ⟨g, w + 1, a, c⟩ ^^^ 16)) ∧
    (∀ g < 2, ∀ w < 4, ∀ a < 2, ∀ c < 16,
      encode ⟨1 - g, w + 1, a, c⟩ = some (encodeVal ⟨g, w + 1, a, c⟩ ^^^ 128)) ∧
    (∀ g < 2, ∀ w < 4, ∀ a < 2, ∀ c < 16,
      encode ⟨g, w + 1, a, c⟩ = some (encodeVal ⟨g, w + 1, a, c⟩)) :=
  ⟨by decide, by decide, by decide⟩

/-- C8 witness: the bit-isolation property evaluated at the record
(gender 1, version 4, active 1, code 15). -/
theorem encode_flip_single_bit_witness :
    encode ⟨1, 3 + 1, 1 - 1, 15⟩ = some (encodeVal ⟨1, 3 + 1, 1, 15⟩ ^^^ 16) ∧
    encode ⟨1 - 1, 3 + 1, 1, 15⟩ = some (encodeVal ⟨1, 3 + 1, 1, 15⟩ ^^^ 128) ∧
    encode ⟨1, 3 + 1, 1, 15⟩ = some (encodeVal ⟨1, 3 + 1, 1, 15⟩) :=
  ⟨encode_flip_single_bit.1 1 (by decide) 3 (by decide) 1 (by decide) 15 (by decide),
   encode_flip_single_bit.2.1 1 (by decide) 3 (by decide) 1 (by decide) 15 (by decide),
   encode_flip_single_bit.2.2 1 (by decide) 3 (by decide) 1 (by decide) 15 (by decide)⟩

/-- C9: the four fields stored by parseByte jointly preserve all information
in the input byte: reassembling (gender << 7) | (version << 5) |
(active << 4) | gigahertz reproduces the byte for every value in [0,255],
and consequently parseByte is injective on [0,255]. -/
theorem parseByte_lossless_injective :
    (∀ b < 256, reassemble (parseByte b) = b) ∧
    (∀ a < 256, ∀ b < 256, parseByte a = parseByte b → a = b) := by
  refine ⟨reassemble_parseByte, fun a ha b hb h => ?_⟩
  rw [← reassemble_parseByte a ha, h, reassemble_parseByte b hb]

/-- C9 witness: the reassembly identity evaluated at byte 0x92. -/
theorem parseByte_lossless_injective_witness :
    reassemble (parseByte 0x92) = 0x92 :=
  parseByte_lossless_injective.1 0x92 (by decide)

/-- C10: the two gender-extraction paths agree on every byte: getRobotGender,
which ANDs with the mask 0x80 stored in a plain signed char (value -128,
promoted to a 32-bit int for the AND), returns exactly the gender field that
parseByte extracts with an unmasked right shift by 7. -/
theorem getRobotGender_eq_parseByte_gender :
    ∀ b < 256, getRobotGender b = (parseByte b).gender := by
  decide

/-- C10 witness: the agreement evaluated at byte 0x18. -/
theorem getRobotGender_eq_parseByte_gender_witness :
    getRobotGender 0x18 = (parseByte 0x18).gender :=
  getRobotGender_eq_parseByte_gender 0x18 (by decide)
